import Mathlib

/-!
Verification of the construction-data pipeline (PipelineService and the
export chunking of the UI layer) against its specification.

The TypeScript sources are shallowly embedded:

* spreadsheet cells that can be text or absent are `Option String`; cells
  that can be text or numeric are `CellVal`;
* JavaScript falsy coercions (`x || ""`, `x || 0`, `!x`) are translated
  explicitly at each use site;
* the regular-expression extractors are translated as leftmost-match
  scanners with explicit backtracking over the numeric sub-grammar
  `\d 1-3 (,\d 3)* (.\d+)?`, mirroring the engine's greedy/lazy order;
* `date-fns` `parse`/`isValid`/`format`/`addDays` are library calls, not
  repository code: they are modelled from the spec (ordered textual
  patterns parsed to a valid calendar date, proleptic Gregorian day
  arithmetic, zero-padded ISO output);
* fallible extraction returns `Option` (`none` stands for `null`), and
  the empty-string/`none` sentinels of the region mappers are `Option`.

Numeric cells are modelled with unbounded integers; JavaScript float
behaviour on astronomically long digit strings is out of scope, as are
non-integer numerals in `Number(...)` coercions. JS string ordering,
`trim` and `toLowerCase` are modelled on Unicode scalar lists, which
agrees with UTF-16 semantics on the BMP text this pipeline handles.
-/

/-- A cell value that is either text or a number (TS `string | number`). -/
inductive CellVal where
  | s (v : String)
  | n (v : Int)
deriving DecidableEq, Repr

/-- JS truthiness of a `string | number` cell value. -/
def CellVal.truthy : CellVal → Bool
  | .s v => v ≠ ""
  | .n v => v ≠ 0

/-- Coercion `String(x || "")` for a text-or-absent cell. -/
def jsStr (v : Option String) : String := v.getD ""

/-- Coercion `String(x)` for a text-or-absent cell: JS renders `undefined`
as the string "undefined" (used without a `|| ""` guard in the filter). -/
def jsStringU (v : Option String) : String :=
  match v with
  | some s => s
  | none => "undefined"

/-- Numeric value of a list of decimal digits (JS `parseInt` on digits). -/
def natOfDigits (ds : List Char) : Nat :=
  ds.foldl (fun a c => a * 10 + (c.toNat - 48)) 0

/-- JS `s.trim()`: surrounding whitespace removed (structural form of
string trimming over the character list). -/
def jsTrim (s : String) : String :=
  String.mk (((s.data.dropWhile Char.isWhitespace).reverse.dropWhile
    Char.isWhitespace).reverse)

/-- JS `s.toLowerCase()` (ASCII case folding suffices for this data). -/
def jsToLower (s : String) : String := String.mk (s.data.map Char.toLower)

/-- JS `s.split(sep)` with a one-character separator. -/
def splitOnCharAux (sep : Char) : List Char → List Char → List String
  | [], acc => [String.mk acc.reverse]
  | c :: rest, acc =>
    if c = sep then String.mk acc.reverse :: splitOnCharAux sep rest []
    else splitOnCharAux sep rest (c :: acc)

/-- String wrapper for the splitter: `"".split(sep)` is `[""]`. -/
def jsSplit (s : String) (sep : Char) : List String := splitOnCharAux sep s.data []

/-- An integer numeral with an optional sign, as JS `Number` reads one. -/
def jsIntOfChars : List Char → Option Int
  | '-' :: ds =>
    if ds ≠ [] ∧ ds.all Char.isDigit then some (-(natOfDigits ds : Int)) else none
  | '+' :: ds =>
    if ds ≠ [] ∧ ds.all Char.isDigit then some ((natOfDigits ds : Int)) else none
  | ds =>
    if ds ≠ [] ∧ ds.all Char.isDigit then some ((natOfDigits ds : Int)) else none

/-- JS `Number(x)` on a cell value, restricted to integer numerals:
`none` stands for `NaN`.  A whitespace-only string coerces to 0. -/
def jsNumber (v : CellVal) : Option Int :=
  match v with
  | .n x => some x
  | .s s =>
    let t := jsTrim s
    if t = "" then some 0 else jsIntOfChars t.data

/-- Strict lexicographic order on character lists, as JS compares strings
with `<` (code-unit order; identical to scalar order on the BMP). -/
def charsLt : List Char → List Char → Bool
  | [], [] => false
  | [], _ :: _ => true
  | _ :: _, [] => false
  | a :: as, b :: bs => if a < b then true else if b < a then false else charsLt as bs

/-- JS `haystack.includes(needle)`: contiguous substring occurrence. -/
def strIncludes (hay sub : String) : Bool := decide (sub.data <:+: hay.data)

/-- Drop `pat` from the front of `cs` if it is literally there. -/
def dropPre? : List Char → List Char → Option (List Char)
  | [], cs => some cs
  | _ :: _, [] => none
  | p :: ps, c :: cs => if c = p then dropPre? ps cs else none

/-- JS `s.replace(pat, '')` with a string pattern: remove the first
occurrence of `pat`, scanning left to right. -/
def removeFirst (pat : List Char) : List Char → List Char
  | [] => []
  | c :: cs =>
    match dropPre? pat (c :: cs) with
    | some rest => rest
    | none => c :: removeFirst pat cs

/-- String wrapper for `removeFirst`. -/
def removeFirstStr (pat s : String) : String := String.mk (removeFirst pat.data s.data)

/-- Leftmost-match regex scanning: try the matcher at every start
position, left to right (the position at the end of the text included). -/
def scanFirst {α : Type} (f : List Char → Option α) : List Char → Option α
  | [] => f []
  | c :: rest =>
    match f (c :: rest) with
    | some r => some r
    | none => scanFirst f rest

/-!
Backtracking matcher for the numeric sub-grammar shared by the area,
household and amount patterns: `\d 1-3` then `(?:,\d 3)*` then
`(?:\.\d+)?`.  Each function lists the engine's alternatives for one
piece, most-preferred (greedy) first, as pairs of consumed characters
and remaining input.
-/

/-- Alternatives for `\d 1-3`: up to three leading digits, longest first. -/
def intPartCands (cs : List Char) : List (List Char × List Char) :=
  let ds := cs.takeWhile Char.isDigit
  let n := min ds.length 3
  (List.range n).map (fun j => (ds.take (n - j), cs.drop (n - j)))

/-- Alternatives for `(?:,\d 3)*`: as many comma-separated three-digit
groups as possible first, then progressively fewer. -/
def commaGroupCands : List Char → List (List Char × List Char)
  | [] => [([], [])]
  | c :: rest =>
    if c = ',' ∧ 3 ≤ (rest.takeWhile Char.isDigit).length then
      ((commaGroupCands (rest.drop 3)).map
        (fun pr => (c :: (rest.take 3 ++ pr.1), pr.2))) ++ [([], c :: rest)]
    else [([], c :: rest)]
termination_by cs => cs.length
decreasing_by
  simp only [List.length_cons, List.length_drop]
  omega

/-- Alternatives for `(?:\.\d+)?`: a dot with a greedy digit run first
(then shorter runs), the absent branch last. -/
def decimalCands (cs : List Char) : List (List Char × List Char) :=
  (match cs with
   | '.' :: rest =>
     let ds := rest.takeWhile Char.isDigit
     (List.range ds.length).map (fun j =>
       ('.' :: ds.take (ds.length - j), rest.drop (ds.length - j)))
   | _ => []) ++ [([], cs)]

/-- All matches of the full numeric grammar at the current position, in
the engine's backtracking order; the consumed characters are the capture. -/
def numCandidates (cs : List Char) : List (List Char × List Char) :=
  (intPartCands cs).flatMap (fun ip =>
    (commaGroupCands ip.2).flatMap (fun gp =>
      (decimalCands gp.2).map (fun dp => (ip.1 ++ (gp.1 ++ dp.1), dp.2))))

/-- Greedy match of the numeric grammar with nothing required after it:
the engine's first alternative. -/
def numGreedy (cs : List Char) : Option (List Char) :=
  ((numCandidates cs).head?).map (fun pr => pr.1)

/-- Strip thousands separators from a captured number
(`match[1].replace(/,/g, '')`). -/
def stripCommas (n : List Char) : String := String.mk (n.filter (fun c => c ≠ ','))

/-- The label argument of `extractArea` ("건축면적" | "대지면적"). -/
inductive AreaType where
  | building
  | site
deriving DecidableEq, Repr

/-- The literal characters of an area label. -/
def areaLabel : AreaType → List Char
  | .building => "건축면적".data
  | .site => "대지면적".data

/-- Characters matched by the regex `.` without the dotAll flag. -/
def isRegexDot (c : Char) : Bool :=
  ¬ (c = '\n' ∨ c = '\r' ∨ c = '\u2028' ∨ c = '\u2029')

/-- The number-then-unit tail of the area pattern at one position: the
first numeric alternative immediately followed by the area unit. -/
def areaNumHere (cs : List Char) : Option (List Char) :=
  (numCandidates cs).findSome? (fun pr =>
    match pr.2 with
    | '㎡' :: _ => some pr.1
    | _ => none)

/-- The lazy `.*?` between the label and the number: try the tail at the
nearest position first, extending one non-newline character at a time. -/
def areaScanNum : List Char → Option (List Char)
  | [] => areaNumHere []
  | c :: rest =>
    match areaNumHere (c :: rest) with
    | some r => some r
    | none => if isRegexDot c then areaScanNum rest else none

/-- `extractArea(text, type)`: first occurrence of the label followed
(lazily, across non-newline characters) by a grouped number and the area
unit; `null` = `none` when nothing matches. -/
def extractArea (text : String) (t : AreaType) : Option String :=
  (scanFirst (fun cs => (dropPre? (areaLabel t) cs).bind areaScanNum) text.data).map
    stripCommas

/-- The label argument of `extractFloors` ("지상" | "지하"). -/
inductive FloorType where
  | ground
  | basement
deriving DecidableEq, Repr

/-- The literal characters of a floor label. -/
def floorLabel : FloorType → List Char
  | .ground => "지상".data
  | .basement => "지하".data

/-- The floor pattern at one position: label, optional whitespace, a
greedy digit run (the optional 층 suffix does not affect the capture). -/
def floorsHere (label : List Char) (cs : List Char) : Option Nat :=
  (dropPre? label cs).bind (fun rest =>
    let r := rest.dropWhile Char.isWhitespace
    let ds := r.takeWhile Char.isDigit
    if ds.isEmpty then none else some (natOfDigits ds))

/-- `extractFloors(text, type)`: leftmost match of `label\s*(\d+)(?:층)?`,
`parseInt` of the captured digits; `none` when absent. -/
def extractFloors (text : String) (t : FloorType) : Option Nat :=
  scanFirst (floorsHere (floorLabel t)) text.data

/-- Skip `\s*`. -/
def skipWs (cs : List Char) : List Char := cs.dropWhile Char.isWhitespace

/-- Skip `[:：]?` (greedy; taking the colon never changes acceptance). -/
def skipColonOpt (cs : List Char) : List Char :=
  match cs with
  | c :: rest => if c = ':' ∨ c = '：' then rest else c :: rest
  | [] => []

/-- The `\s*[:：]?\s*(number)` tail shared by the label-first patterns. -/
def tailColonNum (cs : List Char) : Option (List Char) :=
  numGreedy (skipWs (skipColonOpt (skipWs cs)))

/-- Match literal characters separated by `\s*` (the spaced-out label
variants such as `세\s*대\s*수`). -/
def spacedChars : List Char → List Char → Option (List Char)
  | [], cs => some cs
  | [ch], cs =>
    match cs with
    | c :: r => if c = ch then some r else none
    | [] => none
  | ch :: chs, cs =>
    match cs with
    | c :: r => if c = ch then spacedChars chs (skipWs r) else none
    | [] => none

/-- Household pattern 1 at one position: `세대수\s*[:：]?\s*(number)`. -/
def matchH1 (cs : List Char) : Option (List Char) :=
  (dropPre? "세대수".data cs).bind tailColonNum

/-- Household pattern 2 at one position: `세\s*대\s*수\s*[:：]?\s*(number)`. -/
def matchH2 (cs : List Char) : Option (List Char) :=
  (spacedChars "세대수".data cs).bind tailColonNum

/-- Household pattern 3 at one position: `(number)\s*세대(?!수)`, with the
engine backtracking through the numeric alternatives. -/
def matchH3 (cs : List Char) : Option (List Char) :=
  (numCandidates cs).findSome? (fun pr =>
    (dropPre? "세대".data (skipWs pr.2)).bind (fun r3 =>
      match r3 with
      | '수' :: _ => none
      | _ => some pr.1))

/-- Household pattern 4 at one position: `(number)\s*세\s*대(?!\s*수)`. -/
def matchH4 (cs : List Char) : Option (List Char) :=
  (numCandidates cs).findSome? (fun pr =>
    match spacedChars "세대".data (skipWs pr.2) with
    | some r =>
      match skipWs r with
      | '수' :: _ => none
      | _ => some pr.1
    | none => none)

/-- `extractHouseholds(text)`: the four patterns tried in order, each
scanned over the whole text; first match wins, `none` when all fail. -/
def extractHouseholds (text : String) : Option String :=
  match scanFirst matchH1 text.data with
  | some m => some (stripCommas m)
  | none =>
    match scanFirst matchH2 text.data with
    | some m => some (stripCommas m)
    | none =>
      match scanFirst matchH3 text.data with
      | some m => some (stripCommas m)
      | none => (scanFirst matchH4 text.data).map stripCommas

/-- An amount pattern at one position: `label\s*[:：]?\s*(number)`. -/
def matchAmt (label : List Char) (cs : List Char) : Option (List Char) :=
  (dropPre? label cs).bind tailColonNum

/-- `extractAmount(text)`: the labels 금액, 공사비, 공사금액 tried in
order, each scanned over the whole text; `none` when all fail. -/
def extractAmount (text : String) : Option String :=
  match scanFirst (matchAmt "금액".data) text.data with
  | some m => some (stripCommas m)
  | none =>
    match scanFirst (matchAmt "공사비".data) text.data with
    | some m => some (stripCommas m)
    | none => (scanFirst (matchAmt "공사금액".data) text.data).map stripCommas

/-!
Dates.  `date-fns` is an external library; its `parse`, `isValid`,
`format` and `addDays` are modelled from the spec: each textual pattern
is parsed strictly (the whole string must be consumed) and accepted only
when it denotes a valid proleptic-Gregorian calendar date, and day
arithmetic uses the standard civil-from-days conversion.
-/

/-- A civil calendar date. -/
structure CivilDate where
  year : Int
  month : Nat
  day : Nat
deriving DecidableEq, Repr

/-- Gregorian leap-year rule. -/
def isLeapYear (y : Int) : Bool := y % 4 = 0 ∧ (y % 100 ≠ 0 ∨ y % 400 = 0)

/-- Length of a month. -/
def daysInMonth (y : Int) (m : Nat) : Nat :=
  if m = 2 then (if isLeapYear y then 29 else 28)
  else if m = 4 ∨ m = 6 ∨ m = 9 ∨ m = 11 then 30
  else 31

/-- A parsed (year, month, day) denotes a real calendar date. -/
def validDate (y : Int) (m d : Nat) : Bool :=
  1 ≤ m ∧ m ≤ 12 ∧ 1 ≤ d ∧ d ≤ daysInMonth y m

/-- Days since 1970-01-01 of a civil date (civil calendar algorithm,
floor division). -/
def daysFromCivil (dt : CivilDate) : Int :=
  let y : Int := if dt.month ≤ 2 then dt.year - 1 else dt.year
  let era : Int := y.fdiv 400
  let yoe : Int := y - era * 400
  let mp : Int := if 2 < dt.month then (dt.month : Int) - 3 else (dt.month : Int) + 9
  let doy : Int := (153 * mp + 2).fdiv 5 + (dt.day : Int) - 1
  let doe : Int := yoe * 365 + yoe.fdiv 4 - yoe.fdiv 100 + doy
  era * 146097 + doe - 719468

/-- Civil date of a count of days since 1970-01-01. -/
def civilFromDays (z0 : Int) : CivilDate :=
  let z : Int := z0 + 719468
  let era : Int := z.fdiv 146097
  let doe : Nat := (z - era * 146097).toNat
  let yoe : Nat := (doe - doe / 1460 + doe / 36524 - doe / 146096) / 365
  let y : Int := (yoe : Int) + era * 400
  let doy : Nat := doe - (365 * yoe + yoe / 4 - yoe / 100)
  let mp : Nat := (5 * doy + 2) / 153
  let d : Nat := doy - (153 * mp + 2) / 5 + 1
  let m : Nat := if mp < 10 then mp + 3 else mp - 9
  { year := if m ≤ 2 then y + 1 else y, month := m, day := d }

/-- `addDays(date, n)`. -/
def addDaysDate (dt : CivilDate) (n : Int) : CivilDate :=
  civilFromDays (daysFromCivil dt + n)

/-- Left-pad a numeral with zeros. -/
def padZeros (w : Nat) (n : Nat) : String :=
  let s := toString n
  String.mk (List.replicate (w - s.length) '0') ++ s

/-- Render a year, sign-aware (negative years do not arise in practice). -/
def yearStr (y : Int) : String :=
  if y < 0 then "-" ++ padZeros 4 (-y).toNat else padZeros 4 y.toNat

/-- `format(d, 'yyyy-MM-dd')`. -/
def formatYMD (dt : CivilDate) : String :=
  yearStr dt.year ++ "-" ++ padZeros 2 dt.month ++ "-" ++ padZeros 2 dt.day

/-- `format(d, 'yyyyMMdd')` (the export date tag). -/
def formatCompact (dt : CivilDate) : String :=
  yearStr dt.year ++ padZeros 2 dt.month ++ padZeros 2 dt.day

/-- Take up to `k` leading decimal digits (at least one), greedily. -/
def takeDigitsUpTo (k : Nat) (cs : List Char) : Option (Nat × List Char) :=
  let ds := (cs.takeWhile Char.isDigit).take k
  if ds.isEmpty then none else some (natOfDigits ds, cs.drop ds.length)

/-- Require a literal separator character when the format has one. -/
def takeSep (sep : Option Char) (cs : List Char) : Option (List Char) :=
  match sep with
  | none => some cs
  | some c =>
    match cs with
    | x :: rest => if x = c then some rest else none
    | [] => none

/-- Parse `yyyy sep MM sep dd` (year 1-4 digits, month and day 1-2
digits, greedy), requiring the whole input to be consumed. -/
def parseYMD (sep : Option Char) (cs : List Char) : Option (Nat × Nat × Nat) :=
  (takeDigitsUpTo 4 cs).bind (fun yr =>
    (takeSep sep yr.2).bind (fun r1 =>
      (takeDigitsUpTo 2 r1).bind (fun mr =>
        (takeSep sep mr.2).bind (fun r2 =>
          (takeDigitsUpTo 2 r2).bind (fun dr =>
            match dr.2 with
            | [] => some (yr.1, mr.1, dr.1)
            | _ :: _ => none)))))

/-- One textual pattern: parse, validate as a calendar date, reformat. -/
def tryFmt (sep : Option Char) (cs : List Char) : Option String :=
  match parseYMD sep cs with
  | some (y, m, d) =>
    if validDate (Int.ofNat y) m d then some (formatYMD ⟨Int.ofNat y, m, d⟩) else none
  | none => none

/-- `parseDate(dateVal)` on a string cell: falsy input is `null`; the
trimmed text is tried against 'yyyy.MM.dd', 'yyyyMMdd', 'yyyy-MM-dd' in
order, returning the first valid calendar date as `yyyy-MM-dd`, else
`null` (never an exception). -/
def parseDate (s : String) : Option String :=
  if s = "" then none
  else
    let t := (jsTrim s).data
    match tryFmt (some '.') t with
    | some r => some r
    | none =>
      match tryFmt none t with
      | some r => some r
      | none => tryFmt (some '-') t

/-- `parseDate` applied to a possibly-absent cell: `undefined` is falsy. -/
def parseDateOpt (v : Option String) : Option String :=
  match v with
  | none => none
  | some s => parseDate s

/-- A character closing a bracketed prefix (regex `[\])]`). -/
def isCloseBracket (c : Char) : Bool := c = ']' ∨ c = ')'

/-- A character opening a bracketed prefix (regex `[\[(]`). -/
def isOpenBracket (c : Char) : Bool := c = '[' ∨ c = '('

/-- `cleanProjectName(name)`, translated clause by clause from the
source: short names pass through; a closing bracket in the first four
characters strips through it; otherwise the first closing bracket
strips when an opening bracket precedes it and the trimmed text before
that opening bracket has at most three characters. -/
def cleanProjectName (name : String) : String :=
  if name.length ≤ 4 then name
  else
    let cs := name.data
    match (cs.take 4).findIdx? isCloseBracket with
    | some i => jsTrim (String.mk (cs.drop (i + 1)))
    | none =>
      match cs.findIdx? isCloseBracket with
      | some j =>
        match (cs.take j).findIdx? isOpenBracket with
        | some k =>
          if (jsTrim (String.mk (cs.take k))).length ≤ 3 then
            jsTrim (String.mk (cs.drop (j + 1)))
          else name
        | none => name
      | none => name

/-- `containsExcludedKeyword(name, keywords)`: case-insensitive
substring test against each trimmed keyword; falsy names match nothing. -/
def containsExcludedKeyword (name : Option String) (keywords : List String) : Bool :=
  match name with
  | none => false
  | some s =>
    if s = "" then false
    else keywords.any (fun k => strIncludes (jsToLower s) (jsToLower (jsTrim k)))

/-- The entry loop shared by both region mappers: first entry, in
declared order, whose region-name substring occurs in the address. -/
def mapRegionGo (address : String) : List (String × Int) → Option Int
  | [] => none
  | (reg, code) :: rest =>
    if strIncludes address reg then some code else mapRegionGo address rest

/-- `mapRegion(address)` over the province table (the table itself is
configuration data, passed as a parameter): empty sentinel for a falsy
address or when no entry matches. -/
def mapRegion (mapping : List (String × Int)) (address : String) : Option Int :=
  if address = "" then none else mapRegionGo address mapping

/-- `mapRegion2(address)` over the sub-region table: same logic. -/
def mapRegion2 (mapping : List (String × Int)) (address : String) : Option Int :=
  if address = "" then none else mapRegionGo address mapping

/-!
The canonical record, raw source rows, configuration and the pipeline.
Field names are romanized; each carries the source's column name.
-/

/-- The canonical Construction Project record.  `no` is "No.";
`_originalConstr` is the transient property the normalizers attach
(`none` = the property is absent, as on records loaded from a master
file without that column). -/
structure ConstructionProject where
  no : CellVal := .s ""                      -- "No."
  sido : Option Int := none                  -- 시도
  sigungu : Option Int := none               -- 시군구
  constr : String := ""                      -- 공종
  projectName : Option String := none        -- 공사명
  startDate : String := ""                   -- 착공일
  completionDate : String := ""              -- 준공(승인)일
  address : Option String := none            -- 주소
  agency : Option String := none             -- 발주(수요처)
  contractor : Option String := none         -- 시공사
  contractorPhone : String := ""             -- 시공사연락처
  builtArea : String := ""                   -- 건축면적(㎡)
  basementFloors : CellVal := .s ""          -- 지하층수
  groundFloors : CellVal := .s ""            -- 지상층수
  households : String := ""                  -- 세대수
  sourceTag : String := ""                   -- 출처
  regDate : String := ""                     -- 등록일
  detailConstr : String := ""                -- 상세공종
  overview : String := ""                    -- 공사개요
  firstContractDate : String := ""           -- 최초계약일
  contractChangeOrder : String := ""         -- 계약변경차수
  contractAmount : CellVal := .s ""          -- 계약금액
  coContract : String := ""                  -- 공동계약여부
  companyType : String := ""                 -- 업체구분
  mainBusiness : String := ""                -- 주업종
  bizNumber : String := ""                   -- 사업자번호
  siteArea : String := ""                    -- 대지면적(㎡)
  mainStructure : String := ""               -- 주구조
  mainUse : String := ""                     -- 주용도
  height : String := ""                      -- 높이
  _originalConstr : Option String := none    -- transient original type label
deriving DecidableEq, Repr

/-- A raw Whobuilds (Source A) row; only the columns the normalizer
reads.  Cells are text or absent. -/
structure WhoRow where
  constrType : Option String := none    -- 공종
  datesCombined : Option String := none -- 착공일/준공일
  phoneFax : Option String := none      -- 전화/팩스
  overview : Option String := none      -- 공사개요
  address : Option String := none       -- 주소
  projectName : Option String := none   -- 공사명
  agency : Option String := none        -- 발주처
  contractor : Option String := none    -- 시공사
  regDate : Option String := none       -- 등록일
deriving DecidableEq, Repr

/-- A raw Narajang (Source B) row; only the columns the normalizer
reads.  The contract amount cell can be numeric. -/
structure NaraRow where
  category : Option String := none          -- 공공조달분류
  contractName : Option String := none      -- 계약명
  startDate : Option String := none         -- 착수일자
  endDate : Option String := none           -- 총완수일자
  siteRegion : Option String := none        -- 현장지역
  agency : Option String := none            -- 수요기관
  company : Option String := none           -- 계약시점 업체명
  baseDate : Option String := none          -- 기준일자
  firstContractDate : Option String := none -- 최초계약일자
  changeOrder : Option String := none       -- 계약변경차수
  amount : Option CellVal := none           -- 계약금액
  coMethod : Option String := none          -- 공동수급구성방식
  companyType : Option String := none       -- 계약시점 기업형태구분
  companyRegion : Option String := none     -- 계약시점 업체지역
  bizNumber : Option String := none         -- 업체사업자등록번호
deriving DecidableEq, Repr

/-- The per-run pipeline configuration. -/
structure PipelineConfig where
  chunkSize : Nat
  today : CivilDate
  completionOffsetDays : Int
  minContractAmount : Int
  excludedTypes : List String
  excludedKeywords : List String
deriving DecidableEq, Repr

/-- The artifacts `runPipeline` returns. -/
structure PipelineResult where
  resultDf : List ConstructionProject
  duplicates : List ConstructionProject
  updatedMaster : List ConstructionProject
  dateTag : String
  chunkSize : Nat
deriving DecidableEq, Repr

/-- `CONSTR_MAPPING[key] || dflt` (the lookup tables are configuration
data; a falsy mapped value also falls back). -/
def lookupFalsy (m : String → Option String) (key dflt : String) : String :=
  match m key with
  | some v => if v = "" then dflt else v
  | none => dflt

/-- `extractFloors(...) || ""`: a floor count of 0 is falsy and becomes
the empty string, like a failed extraction. -/
def floorsToCell (r : Option Nat) : CellVal :=
  match r with
  | some n => if n = 0 then .s "" else .n (Int.ofNat n)
  | none => .s ""

/-- `row['계약금액'] || 0` on a text-or-numeric-or-absent cell. -/
def amountOrZero (v : Option CellVal) : CellVal :=
  match v with
  | some c => if c.truthy then c else .n 0
  | none => .n 0

/-- The Whobuilds normalizer (step 1 of `runPipeline`), one raw row to
one canonical record. -/
def normalizeWho (constrMap detailMap : String → Option String)
    (regionMapping regionMapping2 : List (String × Int)) (row : WhoRow) :
    ConstructionProject :=
  let originalConstr := jsStr row.constrType
  let dateRange := jsSplit (jsStr row.datesCombined) '~'
  let contact0 := (jsSplit (jsStr row.phoneFax) '/').headD ""
  let overview := jsStr row.overview
  { no := .s ""
    sido := mapRegion regionMapping (jsStr row.address)
    sigungu := mapRegion2 regionMapping2 (jsStr row.address)
    constr := lookupFalsy constrMap originalConstr ""
    projectName := row.projectName
    startDate := jsStr (parseDateOpt (dateRange.get? 0))
    completionDate := jsStr (parseDateOpt (dateRange.get? 1))
    address := some (removeFirstStr "일원" (jsStr row.address))
    agency := row.agency
    contractor := row.contractor
    contractorPhone := jsTrim (removeFirstStr "h:" contact0)
    builtArea := jsStr (extractArea overview AreaType.building)
    basementFloors := floorsToCell (extractFloors overview FloorType.basement)
    groundFloors := floorsToCell (extractFloors overview FloorType.ground)
    households := jsStr (extractHouseholds overview)
    sourceTag := "01"
    regDate := jsStr (parseDateOpt row.regDate)
    detailConstr := lookupFalsy detailMap originalConstr ""
    overview := overview
    firstContractDate := ""
    contractChangeOrder := ""
    contractAmount := .s (jsStr (extractAmount overview))
    coContract := ""
    companyType := ""
    mainBusiness := ""
    bizNumber := ""
    siteArea := jsStr (extractArea overview AreaType.site)
    mainStructure := ""
    mainUse := ""
    height := ""
    _originalConstr := some originalConstr }

/-- The Narajang normalizer (step 2 of `runPipeline`). -/
def normalizeNara (constrMap detailMap : String → Option String)
    (regionMapping regionMapping2 : List (String × Int)) (row : NaraRow) :
    ConstructionProject :=
  let originalConstr := jsStr row.category
  { no := .s ""
    sido := mapRegion regionMapping (jsStr row.siteRegion)
    sigungu := mapRegion2 regionMapping2 (jsStr row.siteRegion)
    constr := lookupFalsy constrMap originalConstr "E0"
    projectName := row.contractName.map cleanProjectName
    startDate := jsStr (parseDateOpt row.startDate)
    completionDate := jsStr (parseDateOpt row.endDate)
    address := some (jsStr row.siteRegion)
    agency := row.agency
    contractor := row.company
    contractorPhone := ""
    builtArea := ""
    basementFloors := .s ""
    groundFloors := .s ""
    households := ""
    sourceTag := "02"
    regDate := jsStr (parseDateOpt row.baseDate)
    detailConstr := lookupFalsy detailMap originalConstr ""
    overview := ""
    firstContractDate := jsStr (parseDateOpt row.firstContractDate)
    contractChangeOrder := jsStr row.changeOrder
    contractAmount := amountOrZero row.amount
    coContract := if row.coMethod = some "단독계약" then "N" else "Y"
    companyType := jsStr row.companyType
    mainBusiness := jsStr row.companyRegion
    bizNumber := jsStr row.bizNumber
    siteArea := ""
    mainStructure := ""
    mainUse := ""
    height := ""
    _originalConstr := some originalConstr }

/-- The completion-date conjunct shared by both per-source filters:
`p["준공(승인)일"] && p["준공(승인)일"] >= cutoffDateStr`. -/
def dateCheck (d cutoff : String) : Bool :=
  (d != "") && ! charsLt d.data cutoff.data

/-- The excluded-original-type conjunct:
`!config.excludedTypes.includes(p._originalConstr)` (an absent property
is `undefined`, which is never an element of a string list). -/
def constrCheck (excludedTypes : List String) (orig : Option String) : Bool :=
  ! (match orig with
     | some o => excludedTypes.contains o
     | none => false)

/-- The Source-A (Whobuilds) eligibility predicate. -/
def whoFilter (cfg : PipelineConfig) (cutoff : String) (p : ConstructionProject) :
    Bool :=
  let isDefenseAgency := strIncludes (jsStringU p.agency) "방위사업청"
  (! isDefenseAgency) && dateCheck p.completionDate cutoff
    && constrCheck cfg.excludedTypes p._originalConstr
    && ! containsExcludedKeyword p.projectName cfg.excludedKeywords

/-- The Source-B (Narajang) eligibility predicate. -/
def naraFilter (cfg : PipelineConfig) (cutoff : String) (p : ConstructionProject) :
    Bool :=
  let amtCheck :=
    match jsNumber p.contractAmount with
    | some a => decide (cfg.minContractAmount ≤ a)
    | none => false
  amtCheck && dateCheck p.completionDate cutoff
    && constrCheck cfg.excludedTypes p._originalConstr
    && ! containsExcludedKeyword p.projectName cfg.excludedKeywords

/-- One structural floor bound of the merged-set filter: a strictly
empty-string count is absent and passes; otherwise `Number(...)` must be
below the bound (`NaN` comparisons are false). -/
def floorOk (v : CellVal) (bound : Int) : Bool :=
  match v with
  | .s "" => true
  | w =>
    match jsNumber w with
    | some x => decide (x < bound)
    | none => false

/-- The merged-set structural-bounds predicate (step 3). -/
def mergedFilter (p : ConstructionProject) : Bool :=
  floorOk p.basementFloors 10 && floorOk p.groundFloors 100

/-- One dedup key comparison: all four components coerced with
`String(x || "")`, trimmed and compared exactly. -/
def keyMatches (a b : ConstructionProject) : Bool :=
  (jsTrim (jsStr a.projectName) == jsTrim (jsStr b.projectName))
    && (jsTrim (jsStr a.agency) == jsTrim (jsStr b.agency))
    && (jsTrim (jsStr a.contractor) == jsTrim (jsStr b.contractor))
    && (jsTrim (jsStr a.address) == jsTrim (jsStr b.address))

/-- `existingMaster.some(...)`: the new record agrees with some master
record on the whole composite key. -/
def isDuplicate (master : List ConstructionProject) (p : ConstructionProject) :
    Bool :=
  master.any (fun m => keyMatches p m)

/-- The deduplication loop (step 4): each merged record is appended to
`duplicates` or `uniqueNew`, preserving input order. -/
def dedupe (master : List ConstructionProject) :
    List ConstructionProject → List ConstructionProject × List ConstructionProject
  | [] => ([], [])
  | p :: rest =>
    let pr := dedupe master rest
    if isDuplicate master p then (p :: pr.1, pr.2) else (pr.1, p :: pr.2)

/-- Sequential renumbering from `k`: `map((p, i) => i + k)` over "No.". -/
def renumberFrom (k : Nat) : List ConstructionProject → List ConstructionProject
  | [] => []
  | p :: rest => { p with no := .n (Int.ofNat k) } :: renumberFrom (k + 1) rest

/-- `updatedMaster`: the master set then `uniqueNew`, renumbered 1-based
across the whole concatenation (only "No." is rewritten). -/
def updatedMasterOf (existingMaster uniqueNew : List ConstructionProject) :
    List ConstructionProject :=
  renumberFrom 1 (existingMaster ++ uniqueNew)

/-- The cutoff date string, computed once per run:
`format(addDays(config.today, config.completionOffsetDays), 'yyyy-MM-dd')`. -/
def cutoffOf (cfg : PipelineConfig) : String :=
  formatYMD (addDaysDate cfg.today cfg.completionOffsetDays)

/-- `runPipeline`, with file reading abstracted into row lists and the
lookup/region tables passed as configuration data; `now` is the wall
clock read for the date tag. -/
def runPipeline (constrMap detailMap : String → Option String)
    (regionMapping regionMapping2 : List (String × Int))
    (whobuildsData : List WhoRow) (narajangData : List NaraRow)
    (existingMaster : List ConstructionProject)
    (cfg : PipelineConfig) (now : CivilDate) : PipelineResult :=
  let cutoffDateStr := cutoffOf cfg
  let whobuildsProcessed :=
    (whobuildsData.map (normalizeWho constrMap detailMap regionMapping regionMapping2)).filter
      (whoFilter cfg cutoffDateStr)
  let narajangProcessed :=
    (narajangData.map (normalizeNara constrMap detailMap regionMapping regionMapping2)).filter
      (naraFilter cfg cutoffDateStr)
  let mergedNew := (whobuildsProcessed ++ narajangProcessed).filter mergedFilter
  let dd := dedupe existingMaster mergedNew
  { resultDf := renumberFrom 1 dd.2
    duplicates := dd.1
    updatedMaster := updatedMasterOf existingMaster dd.2
    dateTag := formatCompact now
    chunkSize := cfg.chunkSize }

/-- `Math.ceil(n / c)` for a positive chunk size. -/
def numChunks (n c : Nat) : Nat := (n + c - 1) / c

/-- The contiguous slices `resultDf.slice(i*c, (i+1)*c)` of the export
loop in `downloadAll`, before renumbering. -/
def slicesOf (df : List ConstructionProject) (c : Nat) :
    List (List ConstructionProject) :=
  (List.range (numChunks df.length c)).map (fun i => (df.drop (i * c)).take c)

/-- The export chunks of `downloadAll`: each slice independently
renumbered from 1. -/
def chunksOf (df : List ConstructionProject) (c : Nat) :
    List (List ConstructionProject) :=
  (List.range (numChunks df.length c)).map
    (fun i => renumberFrom 1 ((df.drop (i * c)).take c))

/-!
Helper lemmas shared by the claim theorems.
-/

/-- The dedup loop is the pair of complementary filters of its input. -/
theorem dedupe_eq_filters (M : List ConstructionProject) :
    ∀ N, dedupe M N =
      (N.filter (fun p => isDuplicate M p), N.filter (fun p => ! isDuplicate M p)) := by
  intro N
  induction N with
  | nil => rfl
  | cons p rest ih =>
    simp only [dedupe, ih, List.filter_cons]
    cases h : isDuplicate M p <;> simp [h]

/-- Complementary filters of one list split its length. -/
theorem lengthFilterSplit {α : Type} (q : α → Bool) (l : List α) :
    (l.filter q).length + (l.filter (fun a => ! q a)).length = l.length := by
  induction l with
  | nil => rfl
  | cons x xs ih =>
    cases h : q x <;> simp [List.filter_cons, h] <;> omega

/-- Renumbering keeps the length. -/
theorem renumberFrom_length : ∀ (k : Nat) (l : List ConstructionProject),
    (renumberFrom k l).length = l.length := by
  intro k l
  induction l generalizing k with
  | nil => rfl
  | cons p rest ih => simp [renumberFrom, ih]

/-- Renumbering writes the consecutive integers starting at `k` into
"No.". -/
theorem renumberFrom_map_no : ∀ (k : Nat) (l : List ConstructionProject),
    (renumberFrom k l).map (fun p => p.no)
      = (List.range' k l.length).map (fun i => CellVal.n (Int.ofNat i)) := by
  intro k l
  induction l generalizing k with
  | nil => rfl
  | cons p rest ih => simp [renumberFrom, List.range', ih]

/-- A record with "No." overwritten by the blank sentinel. -/
def stripNo (p : ConstructionProject) : ConstructionProject := { p with no := .s "" }

/-- Renumbering changes no field other than "No.". -/
theorem renumberFrom_map_stripNo : ∀ (k : Nat) (l : List ConstructionProject),
    (renumberFrom k l).map stripNo = l.map stripNo := by
  intro k l
  induction l generalizing k with
  | nil => rfl
  | cons p rest ih =>
    simp only [renumberFrom, List.map_cons, ih]
    rfl

/-- The loop of both region mappers is `find?` over the entry list. -/
theorem mapRegionGo_eq_find (address : String) :
    ∀ l : List (String × Int), mapRegionGo address l
      = (l.find? (fun e => strIncludes address e.1)).map (fun e => e.2) := by
  intro l
  induction l with
  | nil => rfl
  | cons e rest ih =>
    cases h : strIncludes address e.1 <;>
      simp [mapRegionGo, List.find?_cons, h, ih]

/-- Filtering with any Boolean predicate is idempotent. -/
theorem filterIdem {α : Type} (q : α → Bool) (l : List α) :
    (l.filter q).filter q = l.filter q := by
  induction l with
  | nil => rfl
  | cons x xs ih => cases h : q x <;> simp [List.filter_cons, h, ih]

/-!
The claims.
-/

/-- Configuration of the concrete run exhibiting the transient-field
leak: offset 0 from 2024-01-01, no exclusions. -/
def bugConfig : PipelineConfig :=
  { chunkSize := 500, today := ⟨2024, 1, 1⟩, completionOffsetDays := 0,
    minContractAmount := 0, excludedTypes := [], excludedKeywords := [] }

/-- A Whobuilds row that passes every filter. -/
def bugWhoRow : WhoRow :=
  { constrType := some "철근콘크리트공사",
    datesCombined := some "2024.03.01~2099.12.31",
    address := some "서울", projectName := some "프로젝트",
    agency := some "기관", contractor := some "업체" }

/-- C1: the claim says `_originalConstr` is dropped before `resultDf`
and `updatedMaster` are produced; in the code both are built with
object spreads that copy every property, so the transient field is
still on every new record of both artifacts.  Evaluated at a one-row
run: the field survives into both outputs. -/
theorem c1_originalConstr_reaches_outputs :
    ((runPipeline (fun _ => none) (fun _ => none) [] [] [bugWhoRow] [] []
        bugConfig ⟨2024, 1, 2⟩).resultDf.map (fun p => p._originalConstr)
      = [some "철근콘크리트공사"])
  ∧ ((runPipeline (fun _ => none) (fun _ => none) [] [] [bugWhoRow] [] []
        bugConfig ⟨2024, 1, 2⟩).updatedMaster.map (fun p => p._originalConstr)
      = [some "철근콘크리트공사"]) := by
  constructor <;> decide

/-- C2: the deduplicator partitions the merged list into the duplicates
and unique-new sublists (the two complementary filters of the input, so
each preserves relative order and interleaves back to the input), their
lengths sum to the input's, they are disjoint, and a record is a
duplicate exactly when some master record agrees on all four key
components after text coercion (missing becomes empty) and trimming,
compared case-sensitively. -/
theorem c2_dedupe_partition : ∀ (M N : List ConstructionProject),
    (dedupe M N).1 = N.filter (fun p => isDuplicate M p)
  ∧ (dedupe M N).2 = N.filter (fun p => ! isDuplicate M p)
  ∧ (dedupe M N).1.length + (dedupe M N).2.length = N.length
  ∧ (∀ p, p ∈ (dedupe M N).1 → ¬ p ∈ (dedupe M N).2)
  ∧ (∀ p, isDuplicate M p = true ↔ ∃ m, m ∈ M ∧ keyMatches p m = true)
  ∧ (∀ p m, keyMatches p m = true ↔
      (jsTrim (jsStr p.projectName) = jsTrim (jsStr m.projectName)
        ∧ jsTrim (jsStr p.agency) = jsTrim (jsStr m.agency)
        ∧ jsTrim (jsStr p.contractor) = jsTrim (jsStr m.contractor)
        ∧ jsTrim (jsStr p.address) = jsTrim (jsStr m.address))) := by
  intro M N
  have hd := dedupe_eq_filters M N
  refine ⟨by rw [hd], by rw [hd], ?_, ?_, ?_, ?_⟩
  · rw [hd]
    exact lengthFilterSplit _ _
  · rw [hd]
    intro p h1 h2
    rw [List.mem_filter] at h1 h2
    rw [h1.2] at h2
    simp at h2
  · intro p
    exact List.any_eq_true
  · intro p m
    simp [keyMatches, and_assoc]

/-- C3: `updatedMaster` is the master set followed by `uniqueNew`,
renumbered: "No." holds exactly 1..L in order whatever the inputs held,
and no other field of any record changes. -/
theorem c3_updatedMaster_renumbering :
    ∀ (existingMaster uniqueNew : List ConstructionProject),
    updatedMasterOf existingMaster uniqueNew
        = renumberFrom 1 (existingMaster ++ uniqueNew)
  ∧ (updatedMasterOf existingMaster uniqueNew).length
        = existingMaster.length + uniqueNew.length
  ∧ (updatedMasterOf existingMaster uniqueNew).map (fun p => p.no)
        = (List.range' 1 (existingMaster.length + uniqueNew.length)).map
            (fun i => CellVal.n (Int.ofNat i))
  ∧ (updatedMasterOf existingMaster uniqueNew).map stripNo
        = (existingMaster ++ uniqueNew).map stripNo := by
  intro em un
  refine ⟨rfl, ?_, ?_, ?_⟩
  · rw [updatedMasterOf, renumberFrom_length, List.length_append]
  · rw [updatedMasterOf, renumberFrom_map_no, List.length_append]
  · rw [updatedMasterOf, renumberFrom_map_stripNo]

/-- The non-date conjuncts of the Source-A predicate. -/
def whoOtherChecks (cfg : PipelineConfig) (p : ConstructionProject) : Bool :=
  (! strIncludes (jsStringU p.agency) "방위사업청")
    && constrCheck cfg.excludedTypes p._originalConstr
    && ! containsExcludedKeyword p.projectName cfg.excludedKeywords

/-- The contract-amount conjunct of the Source-B predicate. -/
def amtCheckOf (cfg : PipelineConfig) (p : ConstructionProject) : Bool :=
  match jsNumber p.contractAmount with
  | some a => decide (cfg.minContractAmount ≤ a)
  | none => false

/-- The non-date conjuncts of the Source-B predicate. -/
def naraOtherChecks (cfg : PipelineConfig) (p : ConstructionProject) : Bool :=
  amtCheckOf cfg p
    && constrCheck cfg.excludedTypes p._originalConstr
    && ! containsExcludedKeyword p.projectName cfg.excludedKeywords

/-- C4: both per-source filters exclude a record whose completion date
is empty or lexically below the cutoff (the cutoff being today plus the
configured offset, formatted once per run), and when the completion
date is lexically at or above the cutoff the filters reduce to their
remaining checks — the boundary is inclusive. -/
theorem c4_completion_cutoff_boundary :
    ∀ (cfg : PipelineConfig) (p : ConstructionProject),
    cutoffOf cfg = formatYMD (addDaysDate cfg.today cfg.completionOffsetDays)
  ∧ (p.completionDate = "" →
      whoFilter cfg (cutoffOf cfg) p = false
        ∧ naraFilter cfg (cutoffOf cfg) p = false)
  ∧ (charsLt p.completionDate.data (cutoffOf cfg).data = true →
      whoFilter cfg (cutoffOf cfg) p = false
        ∧ naraFilter cfg (cutoffOf cfg) p = false)
  ∧ (p.completionDate ≠ "" →
      charsLt p.completionDate.data (cutoffOf cfg).data = false →
      whoFilter cfg (cutoffOf cfg) p = whoOtherChecks cfg p
        ∧ naraFilter cfg (cutoffOf cfg) p = naraOtherChecks cfg p) := by
  intro cfg p
  refine ⟨rfl, ?_, ?_, ?_⟩
  · intro h
    constructor <;> simp [whoFilter, naraFilter, dateCheck, h]
  · intro h
    constructor <;> simp [whoFilter, naraFilter, dateCheck, h]
  · intro h1 h2
    have h1b : (p.completionDate != "") = true := by
      simp only [bne_iff_ne, ne_eq]
      exact h1
    constructor <;>
      simp [whoFilter, naraFilter, dateCheck, whoOtherChecks, naraOtherChecks,
        amtCheckOf, h1b, h2, Bool.and_assoc]

/-- C5: both region mappers return the code of the first entry, in
declared order, whose substring occurs in the address (`find?` over the
table), and the empty sentinel for an empty address; they are total
functions, so no error is possible. -/
theorem c5_region_mapper_first_match :
    ∀ (mapping : List (String × Int)) (address : String),
    mapRegion mapping "" = none
  ∧ mapRegion2 mapping "" = none
  ∧ (address ≠ "" →
      mapRegion mapping address
          = (mapping.find? (fun e => strIncludes address e.1)).map (fun e => e.2)
        ∧ mapRegion2 mapping address
          = (mapping.find? (fun e => strIncludes address e.1)).map (fun e => e.2)) := by
  intro mapping address
  refine ⟨rfl, rfl, ?_⟩
  intro h
  constructor <;> simp [mapRegion, mapRegion2, h, mapRegionGo_eq_find]

/-- Witness for C5 at the spec's overlap test: with entries "A" → 1 and
"AB" → 2 in that order, an address containing both (and matching the
longer second entry) maps to the first entry's code. -/
theorem c5_witness :
    mapRegion [("A", 1), ("AB", 2)] "xAB" = some 1
  ∧ mapRegion2 [("A", 1), ("AB", 2)] "xAB" = some 1 := by
  have h := (c5_region_mapper_first_match [("A", 1), ("AB", 2)] "xAB").2.2 (by decide)
  exact ⟨h.1.trans (by decide), h.2.trans (by decide)⟩

/-- The name cleaner exactly as claim C6 words it: in the second clause
the text preceding the opening bracket is measured without trimming. -/
def cleanProjectNameClaim (name : String) : String :=
  if name.length ≤ 4 then name
  else
    let cs := name.data
    match (cs.take 4).findIdx? isCloseBracket with
    | some i => jsTrim (String.mk (cs.drop (i + 1)))
    | none =>
      match cs.findIdx? isCloseBracket with
      | some j =>
        match (cs.take j).findIdx? isOpenBracket with
        | some k =>
          if (String.mk (cs.take k)).length ≤ 3 then
            jsTrim (String.mk (cs.drop (j + 1)))
          else name
        | none => name
      | none => name

/-- The name cleaner as claim C6 must read to match the code: the text
preceding the opening bracket is trimmed before its length is compared
with 3. -/
def cleanProjectNameAmended (name : String) : String :=
  if name.length ≤ 4 then name
  else
    let cs := name.data
    match (cs.take 4).findIdx? isCloseBracket with
    | some i => jsTrim (String.mk (cs.drop (i + 1)))
    | none =>
      match cs.findIdx? isCloseBracket with
      | some j =>
        match (cs.take j).findIdx? isOpenBracket with
        | some k =>
          if (jsTrim (String.mk (cs.take k))).length ≤ 3 then
            jsTrim (String.mk (cs.drop (j + 1)))
          else name
        | none => name
      | none => name

/-- Counterexample to C6 as stated: in "abc [X]Test" the text before
the opening bracket is "abc " (4 characters), so the claim keeps the
name unchanged, but the code trims it to "abc" (3 characters) and
strips the bracketed prefix. -/
theorem c6_counterexample :
    cleanProjectName "abc [X]Test" = "Test"
  ∧ cleanProjectNameClaim "abc [X]Test" = "abc [X]Test"
  ∧ ¬ cleanProjectName "abc [X]Test" = cleanProjectNameClaim "abc [X]Test" := by
  refine ⟨by decide, by decide, by decide⟩

/-- C6 (amended): with the prefix length measured after trimming, the
claim describes `cleanProjectName` exactly, and "[A]Test Project" maps
to "Test Project". -/
theorem c6_name_cleaner :
    (∀ name, cleanProjectName name = cleanProjectNameAmended name)
  ∧ cleanProjectName "[A]Test Project" = "Test Project" :=
  ⟨fun _ => rfl, by decide⟩

/-- C7: re-filtering an already-filtered list with the same eligibility
predicate — Source A, Source B or the merged-set structural bounds —
removes nothing further. -/
theorem c7_filters_idempotent :
    ∀ (cfg : PipelineConfig) (cutoff : String) (l : List ConstructionProject),
    (l.filter (whoFilter cfg cutoff)).filter (whoFilter cfg cutoff)
        = l.filter (whoFilter cfg cutoff)
  ∧ (l.filter (naraFilter cfg cutoff)).filter (naraFilter cfg cutoff)
        = l.filter (naraFilter cfg cutoff)
  ∧ (l.filter mergedFilter).filter mergedFilter = l.filter mergedFilter :=
  fun _ _ l => ⟨filterIdem _ l, filterIdem _ l, filterIdem _ l⟩

/-- The whole input is covered once the slice count is large enough. -/
theorem slices_join_aux (c : Nat) : ∀ (k : Nat) (l : List ConstructionProject),
    l.length ≤ c * k →
    ((List.range k).map (fun i => (l.drop (i * c)).take c)).flatten = l := by
  intro k
  induction k with
  | zero =>
    intro l h
    have hl : l = [] := List.eq_nil_of_length_eq_zero (by omega)
    subst hl
    rfl
  | succ k ih =>
    intro l h
    have hstep : ((fun i => (l.drop (i * c)).take c) ∘ Nat.succ)
        = fun i => ((l.drop c).drop (i * c)).take c := by
      funext i
      simp only [Function.comp]
      rw [List.drop_drop, Nat.succ_mul, Nat.add_comm (i * c) c]
    rw [List.range_succ_eq_map, List.map_cons, List.map_map, List.flatten_cons, hstep]
    have hlen : (l.drop c).length ≤ c * k := by
      rw [List.length_drop]
      have hms : c * (k + 1) = c * k + c := by ring
      omega
    rw [ih (l.drop c) hlen]
    simp

/-- The record count never exceeds chunk capacity. -/
theorem length_le_mul_numChunks (n c : Nat) (hc : 0 < c) : n ≤ c * numChunks n c := by
  unfold numChunks
  have hdm := Nat.div_add_mod (n + c - 1) c
  have hmod : (n + c - 1) % c < c := Nat.mod_lt _ hc
  omega

/-- The i-th slice of the export loop, explicitly. -/
theorem slicesOf_get (df : List ConstructionProject) (c i : Nat)
    (h : i < (slicesOf df c).length) :
    (slicesOf df c).get ⟨i, h⟩ = (df.drop (i * c)).take c := by
  simp [slicesOf]

/-- C8: for a positive chunk size the export loop cuts `resultDf` into
ceil(n/c) contiguous slices that concatenate back to `resultDf`, each
slice of length c except a possibly-shorter final one, and each
exported chunk is its slice renumbered 1..length. -/
theorem c8_export_chunking : ∀ (df : List ConstructionProject) (c : Nat), 0 < c →
    chunksOf df c = (slicesOf df c).map (renumberFrom 1)
  ∧ (slicesOf df c).flatten = df
  ∧ (slicesOf df c).length = (df.length + c - 1) / c
  ∧ (∀ i, ∀ h : i < (slicesOf df c).length,
      ((slicesOf df c).get ⟨i, h⟩).length = min c (df.length - i * c))
  ∧ (∀ i, ∀ h : i < (slicesOf df c).length,
      i + 1 < (slicesOf df c).length → ((slicesOf df c).get ⟨i, h⟩).length = c)
  ∧ (∀ ch, ch ∈ slicesOf df c → ch.length ≤ c)
  ∧ (∀ ch, ch ∈ chunksOf df c →
      ch.map (fun p => p.no)
        = (List.range' 1 ch.length).map (fun i => CellVal.n (Int.ofNat i))) := by
  intro df c hc
  have hlen : (slicesOf df c).length = numChunks df.length c := by
    simp [slicesOf]
  refine ⟨?_, ?_, ?_, ?_, ?_, ?_, ?_⟩
  · simp [chunksOf, slicesOf, Function.comp]
  · exact slices_join_aux c (numChunks df.length c) df
      (length_le_mul_numChunks df.length c hc)
  · rw [hlen]
    rfl
  · intro i h
    rw [slicesOf_get]
    simp [List.length_take, List.length_drop]
  · intro i h hnext
    rw [slicesOf_get]
    rw [hlen] at hnext
    have h2 : i + 2 ≤ (df.length + c - 1) / c := hnext
    rw [Nat.le_div_iff_mul_le hc] at h2
    have h3 : (i + 2) * c = i * c + 2 * c := by ring
    have h4 : c ≤ df.length - i * c := by omega
    simp [List.length_take, List.length_drop]
    omega
  · intro ch hch
    rcases List.mem_map.mp hch with ⟨i, hi, rfl⟩
    simp [List.length_take]
  · intro ch hch
    rcases List.mem_map.mp hch with ⟨i, hi, rfl⟩
    rw [renumberFrom_map_no, renumberFrom_length]

/-- A canonical empty record for concrete runs. -/
def sampleRecord : ConstructionProject := {}

/-- A concrete `resultDf` of 1050 records. -/
def sampleDf : List ConstructionProject :=
  (List.range 1050).map (fun i => { sampleRecord with no := CellVal.n (Int.ofNat i) })

set_option maxRecDepth 100000 in
/-- Witness for C8 at the spec's concrete scenario: chunk size 500 is
positive, the instantiated conclusion holds, and 1050 records split
into exactly three slices of sizes 500, 500 and 50. -/
theorem c8_witness :
    0 < 500
  ∧ ((slicesOf sampleDf 500).flatten = sampleDf
      ∧ (slicesOf sampleDf 500).length = (sampleDf.length + 500 - 1) / 500)
  ∧ (slicesOf sampleDf 500).map List.length = [500, 500, 50] := by
  refine ⟨by decide,
    ⟨(c8_export_chunking sampleDf 500 (by decide)).2.1,
     (c8_export_chunking sampleDf 500 (by decide)).2.2.1⟩, ?_⟩
  decide

/-- C9: the extractors are total `Option`-valued functions — on empty
input each returns the absent sentinel `none`, never an error — the
normalizers keep one record per raw row, and wherever an extractor (or
the date parser) returns `none` the normalized field holds the empty
string. -/
theorem c9_extractors_absent_sentinels :
    parseDate "" = none
  ∧ (∀ t : AreaType, extractArea "" t = none)
  ∧ (∀ t : FloorType, extractFloors "" t = none)
  ∧ extractHouseholds "" = none
  ∧ extractAmount "" = none
  ∧ (∀ cm dm rm rm2 (rows : List WhoRow),
      (rows.map (normalizeWho cm dm rm rm2)).length = rows.length)
  ∧ (∀ cm dm rm rm2 (rows : List NaraRow),
      (rows.map (normalizeNara cm dm rm rm2)).length = rows.length)
  ∧ (∀ cm dm rm rm2 (row : WhoRow),
        (extractArea (jsStr row.overview) AreaType.building = none →
          (normalizeWho cm dm rm rm2 row).builtArea = "")
      ∧ (extractArea (jsStr row.overview) AreaType.site = none →
          (normalizeWho cm dm rm rm2 row).siteArea = "")
      ∧ (extractHouseholds (jsStr row.overview) = none →
          (normalizeWho cm dm rm rm2 row).households = "")
      ∧ (extractAmount (jsStr row.overview) = none →
          (normalizeWho cm dm rm rm2 row).contractAmount = CellVal.s "")
      ∧ (extractFloors (jsStr row.overview) FloorType.basement = none →
          (normalizeWho cm dm rm rm2 row).basementFloors = CellVal.s "")
      ∧ (extractFloors (jsStr row.overview) FloorType.ground = none →
          (normalizeWho cm dm rm rm2 row).groundFloors = CellVal.s "")
      ∧ (parseDateOpt row.regDate = none →
          (normalizeWho cm dm rm rm2 row).regDate = ""))
  ∧ (∀ cm dm rm rm2 (row : NaraRow),
      parseDateOpt row.endDate = none →
        (normalizeNara cm dm rm rm2 row).completionDate = "") := by
  refine ⟨rfl, ?_, ?_, rfl, rfl, ?_, ?_, ?_, ?_⟩
  · intro t
    cases t <;> rfl
  · intro t
    cases t <;> rfl
  · intro cm dm rm rm2 rows
    exact List.length_map rows _
  · intro cm dm rm rm2 rows
    exact List.length_map rows _
  · intro cm dm rm rm2 row
    refine ⟨?_, ?_, ?_, ?_, ?_, ?_, ?_⟩ <;> intro h
    · show jsStr (extractArea (jsStr row.overview) AreaType.building) = ""
      rw [h]
      rfl
    · show jsStr (extractArea (jsStr row.overview) AreaType.site) = ""
      rw [h]
      rfl
    · show jsStr (extractHouseholds (jsStr row.overview)) = ""
      rw [h]
      rfl
    · show CellVal.s (jsStr (extractAmount (jsStr row.overview))) = CellVal.s ""
      rw [h]
      rfl
    · show floorsToCell (extractFloors (jsStr row.overview) FloorType.basement)
        = CellVal.s ""
      rw [h]
      rfl
    · show floorsToCell (extractFloors (jsStr row.overview) FloorType.ground)
        = CellVal.s ""
      rw [h]
      rfl
    · show jsStr (parseDateOpt row.regDate) = ""
      rw [h]
      rfl
  · intro cm dm rm rm2 row h
    show jsStr (parseDateOpt row.endDate) = ""
    rw [h]
    rfl

/-- A raw Source-A row with every cell absent. -/
def emptyWhoRow : WhoRow := {}

/-- Witness for C9: at a row with no overview text, area extraction
fails with `none` and the normalized built-up-area field is the empty
string; the empty date parses to `null`. -/
theorem c9_witness :
    extractArea (jsStr emptyWhoRow.overview) AreaType.building = none
  ∧ (normalizeWho (fun _ => none) (fun _ => none) [] [] emptyWhoRow).builtArea = ""
  ∧ parseDate "" = none := by
  refine ⟨by decide, ?_, c9_extractors_absent_sentinels.1⟩
  exact (c9_extractors_absent_sentinels.2.2.2.2.2.2.2.1
    (fun _ => none) (fun _ => none) [] [] emptyWhoRow).1 (by decide)

/-- C10: when the floor extractor returns the number 0 (text such as
"지하 0"), the Source-A normalizer stores the empty-string sentinel —
indistinguishable from a failed extraction — because `0 || ""`
collapses the falsy 0; any nonzero count is kept as a number. -/
theorem c10_zero_floor_collapses :
    ∀ cm dm rm rm2 (row : WhoRow),
      (extractFloors (jsStr row.overview) FloorType.basement = some 0 →
        (normalizeWho cm dm rm rm2 row).basementFloors = CellVal.s "")
    ∧ (extractFloors (jsStr row.overview) FloorType.ground = some 0 →
        (normalizeWho cm dm rm rm2 row).groundFloors = CellVal.s "")
    ∧ (extractFloors (jsStr row.overview) FloorType.basement = none →
        (normalizeWho cm dm rm rm2 row).basementFloors = CellVal.s "")
    ∧ (∀ n, extractFloors (jsStr row.overview) FloorType.basement = some n →
        ¬ n = 0 →
        (normalizeWho cm dm rm rm2 row).basementFloors = CellVal.n (Int.ofNat n)) := by
  intro cm dm rm rm2 row
  refine ⟨?_, ?_, ?_, ?_⟩
  · intro h
    show floorsToCell (extractFloors (jsStr row.overview) FloorType.basement)
      = CellVal.s ""
    rw [h]
    rfl
  · intro h
    show floorsToCell (extractFloors (jsStr row.overview) FloorType.ground)
      = CellVal.s ""
    rw [h]
    rfl
  · intro h
    show floorsToCell (extractFloors (jsStr row.overview) FloorType.basement)
      = CellVal.s ""
    rw [h]
    rfl
  · intro n h hn
    show floorsToCell (extractFloors (jsStr row.overview) FloorType.basement)
      = CellVal.n (Int.ofNat n)
    rw [h]
    simp [floorsToCell, hn]

/-- A raw Source-A row whose overview mentions a zero basement count. -/
def zeroFloorRow : WhoRow := { overview := some "지하 0층 지상 5층" }

/-- Witness for C10: on "지하 0층 지상 5층" the basement extractor
returns `some 0`, yet the normalized basement field is the empty
string while the above-ground field keeps 5. -/
theorem c10_witness :
    extractFloors (jsStr zeroFloorRow.overview) FloorType.basement = some 0
  ∧ (normalizeWho (fun _ => none) (fun _ => none) [] [] zeroFloorRow).basementFloors
      = CellVal.s ""
  ∧ (normalizeWho (fun _ => none) (fun _ => none) [] [] zeroFloorRow).groundFloors
      = CellVal.n 5 := by
  refine ⟨by decide, ?_, by decide⟩
  exact (c10_zero_floor_collapses (fun _ => none) (fun _ => none) [] [] zeroFloorRow).1
    (by decide)
